import Mathlib

/-!
Verification of the 3zero camera application (src/3zero.py): a shallow
embedding of its command executor, network mode controller, exposure
controller and capture/timer coordinator, followed by theorems settling
the specification claims.

External effects (spawned commands, the camera device, `time.sleep`,
Qt styles) are modelled as an explicit trace of effect events; the
outcome of each external command is drawn from an environment mapping
each command to its `CommandOutcome`. All state mutated by the handlers
(the module-level globals of 3zero.py) is carried explicitly.
-/

namespace ThreeZero

/-! ## Command executor (run_system_command) -/

/-- The distinct system commands issued by 3zero.py (each a fixed argv). -/
inductive SysCmd
  | rfkillUnblock        -- sudo rfkill unblock wifi
  | rfkillBlock          -- sudo rfkill block wifi
  | nmcliClientUp        -- sudo nmcli connection up preconfigured
  | nmcliClientDown      -- sudo nmcli connection down preconfigured
  | dnsmasqEnable        -- sudo systemctl enable dnsmasq
  | dnsmasqStart         -- sudo systemctl start dnsmasq
  | dnsmasqStop          -- sudo systemctl stop dnsmasq
  | dnsmasqDisable       -- sudo systemctl disable dnsmasq
  | nmbdStart            -- sudo systemctl start nmbd
  | smbdStart            -- sudo systemctl start smbd
  | smbdStop             -- sudo systemctl stop smbd
  | nmbdStop             -- sudo systemctl stop nmbd
  | hotspot              -- sudo nmcli device wifi hotspot ...
  | apConnDown           -- sudo nmcli connection down CameraHotspot
  | apConnDelete         -- sudo nmcli connection delete CameraHotspot
deriving DecidableEq

/-- Outcome of running one external command (subprocess behaviour). -/
inductive CommandOutcome
  | success                      -- returncode == 0
  | failure (code : Int)         -- nonzero returncode
  | timedOut                     -- subprocess.TimeoutExpired
  | notFound                     -- FileNotFoundError
deriving DecidableEq

/-- Environment: the outcome each external command would have if spawned. -/
def Env : Type := SysCmd → CommandOutcome

/-- Shallow embedding of `run_system_command(command_list, ignore_fail)`:
returncode 0 yields True; a nonzero returncode yields True exactly when
`ignore_fail` is set; `FileNotFoundError` and `TimeoutExpired` yield False
unconditionally (their `except` branches return False without consulting
`ignore_fail`). -/
def run_system_command (o : CommandOutcome) (ignore_fail : Bool) : Bool :=
  match o with
  | .success => true
  | .failure _ => ignore_fail
  | .timedOut => false
  | .notFound => false

/-- Boolean result of issuing command `c` under environment `env`. -/
def okc (env : Env) (c : SysCmd) (ignore_fail : Bool) : Bool :=
  run_system_command (env c) ignore_fail

/-- One observable effect of the network controller. -/
inductive NetEff
  | cmd (c : SysCmd) (ignore_fail : Bool) (ok : Bool)  -- a run_system_command call
  | sleep (secs : Nat)                                 -- time.sleep
deriving DecidableEq

/-- Trace entry for issuing command `c` under `env`. -/
def effOf (env : Env) (c : SysCmd) (ignore_fail : Bool) : NetEff :=
  NetEff.cmd c ignore_fail (okc env c ignore_fail)

/-- Number of invocations of command `c` in a trace. -/
def countCmd (c : SysCmd) (t : List NetEff) : Nat :=
  (t.filter fun e =>
    match e with
    | NetEff.cmd c2 _ _ => c2 = c
    | NetEff.sleep _ => false).length

/-- Number of `time.sleep` calls in a trace. -/
def countSleep (t : List NetEff) : Nat :=
  (t.filter fun e =>
    match e with
    | NetEff.cmd _ _ _ => false
    | NetEff.sleep _ => true).length

/-! ## Network mode control functions -/

/-- Embedding of `start_client_mode()`: rfkill unblock (hard), dnsmasq
enable/start (ignorable, always run), nmcli client up (ignorable, run only
while still successful), then nmbd and smbd starts (hard, each run only
while still successful). Returns the `success` flag and the trace. -/
def start_client_mode (env : Env) : Bool × List NetEff :=
  let pre := [effOf env .rfkillUnblock false,
              effOf env .dnsmasqEnable true,
              effOf env .dnsmasqStart true]
  if okc env .rfkillUnblock false then
    let t1 := pre ++ [effOf env .nmcliClientUp true]
    if okc env .nmbdStart false then
      (okc env .smbdStart false, t1 ++ [effOf env .nmbdStart false, effOf env .smbdStart false])
    else
      (false, t1 ++ [effOf env .nmbdStart false])
  else
    (false, pre)

/-- Embedding of `stop_client_mode()`: three ignorable commands, then an
unconditional `return True`. -/
def stop_client_mode (env : Env) : Bool × List NetEff :=
  (true, [effOf env .nmcliClientDown true,
          effOf env .smbdStop true,
          effOf env .nmbdStop true])

/-- Embedding of `start_ap_mode()`: rfkill unblock (hard); if successful,
dnsmasq stop/disable (ignorable) and the nmcli hotspot command (hard); if
the hotspot started, sleep AP_STABILIZE_DELAY_S (15) seconds then start nmbd
and smbd (both always attempted, each failure clears `success`). -/
def start_ap_mode (env : Env) : Bool × List NetEff :=
  if okc env .rfkillUnblock false then
    let pre := [effOf env .rfkillUnblock false,
                effOf env .dnsmasqStop true,
                effOf env .dnsmasqDisable true]
    if okc env .hotspot false then
      (okc env .nmbdStart false && okc env .smbdStart false,
       pre ++ [effOf env .hotspot false, NetEff.sleep 15,
               effOf env .nmbdStart false, effOf env .smbdStart false])
    else
      (false, pre ++ [effOf env .hotspot false])
  else
    (false, [effOf env .rfkillUnblock false])

/-- Embedding of `stop_ap_mode()`: four ignorable commands, then an
unconditional `return True`. -/
def stop_ap_mode (env : Env) : Bool × List NetEff :=
  (true, [effOf env .apConnDown true,
          effOf env .apConnDelete true,
          effOf env .smbdStop true,
          effOf env .nmbdStop true])

/-! ## Network/UI state and button handlers -/

/-- The module-level network state variables plus the UI bits the handlers
mutate: `is_wifi_on`, `is_ap_mode_active`, whether each button shows the
active (red-text) style sheet, and whether the AP button is enabled. -/
structure NetUI where
  is_wifi_on : Bool
  is_ap_mode_active : Bool
  btn_wifi_red : Bool
  btn_ap_red : Bool
  btn_ap_enabled : Bool
deriving DecidableEq

/-- Embedding of `on_wifi_button_clicked()`. Turning ON: clear
`is_ap_mode_active` and the AP button style, run `start_client_mode`; on
success set `is_wifi_on`, red WiFi style, enable AP button; on failure run
`rfkill block wifi` once, clear `is_wifi_on`, inactive style, disable AP
button. Turning OFF: stop AP or client services (per `is_ap_mode_active`),
block the radio; if both report success clear both state flags and styles
and disable the AP button, else keep `is_wifi_on` true with the active
style and the AP button enabled (`is_ap_mode_active` untouched). -/
def on_wifi_button_clicked (env : Env) (s : NetUI) : NetUI × List NetEff :=
  if s.is_wifi_on then
    -- Turning WiFi OFF
    let stopR := if s.is_ap_mode_active then stop_ap_mode env else stop_client_mode env
    let t := stopR.2 ++ [effOf env .rfkillBlock false]
    if stopR.1 && okc env .rfkillBlock false then
      ({ is_wifi_on := false, is_ap_mode_active := false,
         btn_wifi_red := false, btn_ap_red := false, btn_ap_enabled := false }, t)
    else
      ({ s with is_wifi_on := true, btn_wifi_red := true, btn_ap_enabled := true }, t)
  else
    -- Turning WiFi ON (activating client mode); AP flag/style cleared first
    let clientR := start_client_mode env
    if clientR.1 then
      ({ is_wifi_on := true, is_ap_mode_active := false,
         btn_wifi_red := true, btn_ap_red := false, btn_ap_enabled := true }, clientR.2)
    else
      ({ is_wifi_on := false, is_ap_mode_active := false,
         btn_wifi_red := false, btn_ap_red := false, btn_ap_enabled := false },
       clientR.2 ++ [effOf env .rfkillBlock false])

/-- Embedding of `on_ap_button_clicked()`. Ignores the click when WiFi is
off. Client→AP: stop client (always succeeds), start AP; on failure revert
once via `start_client_mode` (result discarded) and report failure by
leaving `is_ap_mode_active` false with the inactive style. AP→Client is
symmetric with `start_ap_mode` as the revert. -/
def on_ap_button_clicked (env : Env) (s : NetUI) : NetUI × List NetEff :=
  if s.is_wifi_on then
    if s.is_ap_mode_active then
      -- Switching AP -> Client
      let stopR := stop_ap_mode env
      if stopR.1 then
        let cliR := start_client_mode env
        if cliR.1 then
          ({ s with is_ap_mode_active := false, btn_ap_red := false }, stopR.2 ++ cliR.2)
        else
          let revR := start_ap_mode env
          ({ s with is_ap_mode_active := true, btn_ap_red := true },
           stopR.2 ++ cliR.2 ++ revR.2)
      else
        ({ s with is_ap_mode_active := true, btn_ap_red := true }, stopR.2)
    else
      -- Switching Client -> AP
      let stopR := stop_client_mode env
      if stopR.1 then
        let apR := start_ap_mode env
        if apR.1 then
          ({ s with is_ap_mode_active := true, btn_ap_red := true }, stopR.2 ++ apR.2)
        else
          let revR := start_client_mode env
          ({ s with is_ap_mode_active := false, btn_ap_red := false },
           stopR.2 ++ apR.2 ++ revR.2)
      else
        ({ s with is_ap_mode_active := false, btn_ap_red := false }, stopR.2)
  else
    (s, [])

/-- A network-related UI event together with the command environment in
force when it is handled. -/
inductive NetEvent
  | wifiBtn (env : Env)
  | apBtn (env : Env)

/-- State transition of one network UI event. -/
def netStep (s : NetUI) : NetEvent → NetUI
  | NetEvent.wifiBtn env => (on_wifi_button_clicked env s).1
  | NetEvent.apBtn env => (on_ap_button_clicked env s).1

/-- Run a sequence of network UI events from a state. -/
def netRun (s : NetUI) : List NetEvent → NetUI
  | [] => s
  | e :: es => netRun (netStep s e) es

/-- Startup state of the network globals and widgets: `is_wifi_on` is
`initial_services_ok` (here the parameter `b`), `is_ap_mode_active` is
False, the WiFi button style and the AP button enablement follow `b`. -/
def initial_state (b : Bool) : NetUI :=
  { is_wifi_on := b, is_ap_mode_active := false,
    btn_wifi_red := b, btn_ap_red := false, btn_ap_enabled := b }

/-! ## Camera controls and exposure controller -/

/-- libcamera AeMeteringModeEnum values used by 3zero.py. -/
inductive AeMeteringModeEnum | Matrix
deriving DecidableEq

/-- libcamera AwbModeEnum values used by 3zero.py. -/
inductive AwbModeEnum | Auto
deriving DecidableEq

/-- libcamera AeConstraintModeEnum values used by 3zero.py. -/
inductive AeConstraintModeEnum | Normal
deriving DecidableEq

/-- libcamera AeExposureModeEnum values used by 3zero.py. -/
inductive AeExposureModeEnum | Normal
deriving DecidableEq

/-- A controls dictionary: each field is a key that 3zero.py ever places in
a controls dict, `none` meaning the key is absent. `AnalogueGain` is the
float 1.0 in the source, represented exactly as the natural number 1. -/
structure CamControls where
  AeEnable : Option Bool := none
  AeMeteringMode : Option AeMeteringModeEnum := none
  AwbEnable : Option Bool := none
  AwbMode : Option AwbModeEnum := none
  AeConstraintMode : Option AeConstraintModeEnum := none
  AeExposureMode : Option AeExposureModeEnum := none
  AnalogueGain : Option Nat := none
  ExposureTime : Option Nat := none
deriving DecidableEq

/-- The `general_settings` dict (auto-exposure defaults). -/
def general_settings : CamControls :=
  { AeEnable := some true,
    AeMeteringMode := some AeMeteringModeEnum.Matrix,
    AwbEnable := some true,
    AwbMode := some AwbModeEnum.Auto,
    AeConstraintMode := some AeConstraintModeEnum.Normal,
    AeExposureMode := some AeExposureModeEnum.Normal }

/-- The `exposure_times` dict: preset label to exposure time in µs. -/
def exposure_times : List (String × Nat) :=
  [("1", 1000000), ("1/2", 500000), ("1/4", 250000), ("1/15", 66667),
   ("1/30", 33333), ("1/60", 16667), ("1/125", 8000), ("1/250", 4000),
   ("1/500", 2000), ("1/1000", 1000)]

/-- The `manual_settings` dict built in `on_exposure_button_clicked` from a
preset's exposure time. -/
def manual_settings_for (exposure_time : Nat) : CamControls :=
  { AnalogueGain := some 1,
    AeEnable := some false,
    ExposureTime := some exposure_time,
    AwbEnable := some true,
    AwbMode := some AwbModeEnum.Auto }

/-- Whether the camera device raises on each of the two control paths:
`set_controls` and the stop/reconfigure/start fallback. -/
structure DevEnv where
  set_controls_raises : Bool
  configure_raises : Bool
deriving DecidableEq

/-- One observable effect on the camera capability layer. -/
inductive CamEff
  | set_controls (c : CamControls)        -- picam2.set_controls(c) attempted
  | cam_stop                              -- picam2.stop()
  | configure (c : CamControls)           -- picam2.configure(config with controls c)
  | cam_start                             -- picam2.start()
  | capture_file (c : Option CamControls) -- switch_mode_and_capture_file with
                                          -- still config controls c (none = auto)
  | log_error                             -- an exception was caught and logged
deriving DecidableEq

/-- Merge of a `set_controls` call into the device's current controls:
only the keys present in `c` are overwritten. -/
def mergeControls (d c : CamControls) : CamControls :=
  { AeEnable := c.AeEnable <|> d.AeEnable,
    AeMeteringMode := c.AeMeteringMode <|> d.AeMeteringMode,
    AwbEnable := c.AwbEnable <|> d.AwbEnable,
    AwbMode := c.AwbMode <|> d.AwbMode,
    AeConstraintMode := c.AeConstraintMode <|> d.AeConstraintMode,
    AeExposureMode := c.AeExposureMode <|> d.AeExposureMode,
    AnalogueGain := c.AnalogueGain <|> d.AnalogueGain,
    ExposureTime := c.ExposureTime <|> d.ExposureTime }

/-- The try/except ladder of `on_exposure_button_clicked`: try
`set_controls(c)`; if it raises, fall back to stop/configure/start; if the
fallback also raises, only log. Returns the device's resulting controls
(`d` is its prior controls) and the effect trace. The total-failure trace
omits the individual stop/configure/start steps because the source cannot
tell how far the fallback got before raising. -/
def apply_with_fallback (dev : DevEnv) (d c : CamControls) : CamControls × List CamEff :=
  if dev.set_controls_raises then
    if dev.configure_raises then
      (d, [CamEff.set_controls c, CamEff.log_error])
    else
      (c, [CamEff.set_controls c, CamEff.cam_stop, CamEff.configure c, CamEff.cam_start])
  else
    (mergeControls d c, [CamEff.set_controls c])

/-- The exposure controller's state: the module globals
`active_exposure_button` (identified by its label) and
`current_manual_settings`, plus a model of the device's actual controls
(the external collaborator's truth, used to state divergence). -/
structure ExpState where
  active_exposure_button : Option String
  current_manual_settings : Option CamControls
  device_controls : CamControls
deriving DecidableEq

/-- Embedding of `on_exposure_button_clicked(button, label)`. If the
clicked button is the active one: clear the active button and
`current_manual_settings`, then apply `general_settings` with fallback.
Otherwise: record the clicked button as active, build and store the manual
settings, then apply them with fallback. (In the source an unknown label
would raise KeyError; the GUI only passes keys of `exposure_times`, and the
unknown-label branch here leaves the state unchanged.) -/
def on_exposure_button_clicked (dev : DevEnv) (s : ExpState) (label : String) :
    ExpState × List CamEff :=
  if s.active_exposure_button = some label then
    let r := apply_with_fallback dev s.device_controls general_settings
    ({ active_exposure_button := none, current_manual_settings := none,
       device_controls := r.1 }, r.2)
  else
    match exposure_times.lookup label with
    | some exposure_time =>
      let manual := manual_settings_for exposure_time
      let r := apply_with_fallback dev s.device_controls manual
      ({ active_exposure_button := some label, current_manual_settings := some manual,
         device_controls := r.1 }, r.2)
    | none => (s, [])

/-- Iterated toggling of the same preset label. -/
def toggleIter (dev : DevEnv) (label : String) : Nat → ExpState → ExpState
  | 0, s => s
  | n + 1, s => (on_exposure_button_clicked dev (toggleIter dev label n s) label).1

/-! ## Capture/timer coordinator -/

/-- The capture/timer coordinator's state: the global
`is_timer_countdown_active`, the timer button style, the queue of
`QTimer.singleShot` callbacks still scheduled (tagged by countdown id,
oldest deadline first), the id for the next scheduled callback, and the
`current_manual_settings` global read by the capture path. -/
structure TimerSt where
  is_timer_countdown_active : Bool
  btn_timer_red : Bool
  pending : List Nat
  next_id : Nat
  current_manual_settings : Option CamControls
deriving DecidableEq

/-- Embedding of `save_image()`: one `switch_mode_and_capture_file` call
whose still configuration carries a copy of `current_manual_settings` when
manual mode is active, and no explicit controls otherwise. -/
def save_image (s : TimerSt) : List CamEff :=
  [CamEff.capture_file s.current_manual_settings]

/-- Embedding of `reapply_manual_exposure_if_needed()`: when
`current_manual_settings` is set, one `set_controls` call with it (an
exception is caught and logged); otherwise nothing. -/
def reapply_manual_exposure_if_needed (dev : DevEnv) (s : TimerSt) : List CamEff :=
  match s.current_manual_settings with
  | some m =>
    if dev.set_controls_raises then [CamEff.set_controls m, CamEff.log_error]
    else [CamEff.set_controls m]
  | none => []

/-- Embedding of `on_save_button_clicked()`: ignored while the countdown is
active; otherwise `save_image()` then reapplication. -/
def on_save_button_clicked (dev : DevEnv) (s : TimerSt) : TimerSt × List CamEff :=
  if s.is_timer_countdown_active then
    (s, [])
  else
    (s, save_image s ++ reapply_manual_exposure_if_needed dev s)

/-- Embedding of `handle_capture_press()` (the physical button): same
behaviour as the GUI save button. -/
def handle_capture_press (dev : DevEnv) (s : TimerSt) : TimerSt × List CamEff :=
  if s.is_timer_countdown_active then
    (s, [])
  else
    (s, save_image s ++ reapply_manual_exposure_if_needed dev s)

/-- Embedding of `on_timer_button_clicked()`: if counting, cancel by
clearing the flag and the active style only — the scheduled callback is
not unscheduled; otherwise set the flag and the active style and schedule
a fresh `QTimer.singleShot(TIMER_DELAY_MS, delayed_capture_and_reset)`
callback (appended to the pending queue with a fresh id). -/
def on_timer_button_clicked (s : TimerSt) : TimerSt × List CamEff :=
  if s.is_timer_countdown_active then
    ({ s with is_timer_countdown_active := false, btn_timer_red := false }, [])
  else
    ({ s with
        is_timer_countdown_active := true, btn_timer_red := true,
        pending := s.pending ++ [s.next_id], next_id := s.next_id + 1 }, [])

/-- Embedding of `delayed_capture_and_reset()`: capture exactly when the
flag is still set, then clear the flag and the button style regardless, and
reapply manual exposure only when a capture was done. -/
def delayed_capture_and_reset (dev : DevEnv) (s : TimerSt) : TimerSt × List CamEff :=
  let capture_done := s.is_timer_countdown_active
  let t1 := if capture_done then save_image s else []
  let s2 := { s with is_timer_countdown_active := false, btn_timer_red := false }
  let t2 := if capture_done then reapply_manual_exposure_if_needed dev s2 else []
  (s2, t1 ++ t2)

/-- The scheduler firing the oldest pending single-shot callback (a no-op
event when none is pending). -/
def fire_timer (dev : DevEnv) (s : TimerSt) : TimerSt × List CamEff :=
  match s.pending with
  | [] => (s, [])
  | _ :: rest => delayed_capture_and_reset dev { s with pending := rest }

/-- Capture/timer events as delivered by the event loop. -/
inductive CamEvent
  | press_save
  | press_physical
  | press_timer
  | fire
deriving DecidableEq

/-- One event-loop step of the capture/timer coordinator. -/
def camStep (dev : DevEnv) (s : TimerSt) : CamEvent → TimerSt × List CamEff
  | CamEvent.press_save => on_save_button_clicked dev s
  | CamEvent.press_physical => handle_capture_press dev s
  | CamEvent.press_timer => on_timer_button_clicked s
  | CamEvent.fire => fire_timer dev s

/-- Run a sequence of capture/timer events, accumulating the trace. -/
def camRun (dev : DevEnv) (s : TimerSt) : List CamEvent → TimerSt × List CamEff
  | [] => (s, [])
  | e :: es =>
    let r := camStep dev s e
    let r2 := camRun dev r.1 es
    (r2.1, r.2 ++ r2.2)

/-- The still-capture calls in a camera-effect trace. -/
def capturesIn (t : List CamEff) : List CamEff :=
  t.filter fun e =>
    match e with
    | CamEff.capture_file _ => true
    | _ => false

/-- The capture and `set_controls` calls in a camera-effect trace, in
order. -/
def captureAndControlCalls (t : List CamEff) : List CamEff :=
  t.filter fun e =>
    match e with
    | CamEff.capture_file _ => true
    | CamEff.set_controls _ => true
    | _ => false

/-- An environment in which every external command succeeds. -/
def goodEnv : Env := fun _ => CommandOutcome.success

/-- A camera device on which neither control path raises. -/
def goodDev : DevEnv := { set_controls_raises := false, configure_raises := false }

/-- A camera device on which both control paths raise. -/
def badDev : DevEnv := { set_controls_raises := true, configure_raises := true }

/-- Environment update: command `c` now yields outcome `o`. -/
def updEnv (env : Env) (c : SysCmd) (o : CommandOutcome) : Env :=
  fun c2 => if c2 = c then o else env c2

/-- The idle startup state of the capture/timer coordinator. -/
def timerStart : TimerSt :=
  { is_timer_countdown_active := false, btn_timer_red := false,
    pending := [], next_id := 0, current_manual_settings := none }

/-- The startup state of the exposure controller: no active preset, auto
settings applied to the device. -/
def expStart : ExpState :=
  { active_exposure_button := none, current_manual_settings := none,
    device_controls := general_settings }

/-! ## Helper lemmas: network functions -/

theorem countCmd_append (c : SysCmd) (t1 t2 : List NetEff) :
    countCmd c (t1 ++ t2) = countCmd c t1 + countCmd c t2 := by
  simp [countCmd, List.filter_append]

theorem countSleep_append (t1 t2 : List NetEff) :
    countSleep (t1 ++ t2) = countSleep t1 + countSleep t2 := by
  simp [countSleep, List.filter_append]

theorem start_client_mode_fst (env : Env) :
    (start_client_mode env).1 =
      (okc env .rfkillUnblock false && okc env .nmbdStart false &&
       okc env .smbdStart false) := by
  unfold start_client_mode
  cases h1 : okc env .rfkillUnblock false <;>
    cases h2 : okc env .nmbdStart false <;> simp [h1, h2]

theorem start_client_mode_count_block (env : Env) :
    countCmd SysCmd.rfkillBlock (start_client_mode env).2 = 0 := by
  unfold start_client_mode
  cases h1 : okc env .rfkillUnblock false <;>
    cases h2 : okc env .nmbdStart false <;> simp [h1, h2] <;> rfl

theorem start_client_mode_count_sleep (env : Env) :
    countSleep (start_client_mode env).2 = 0 := by
  unfold start_client_mode
  cases h1 : okc env .rfkillUnblock false <;>
    cases h2 : okc env .nmbdStart false <;> simp [h1, h2] <;> rfl

theorem start_client_mode_count_dnsmasq_enable (env : Env) :
    countCmd SysCmd.dnsmasqEnable (start_client_mode env).2 = 1 := by
  unfold start_client_mode
  cases h1 : okc env .rfkillUnblock false <;>
    cases h2 : okc env .nmbdStart false <;> simp [h1, h2] <;> rfl

theorem start_ap_mode_hotspot_fail (env : Env)
    (hu : okc env .rfkillUnblock false = true)
    (hh : okc env .hotspot false = false) :
    start_ap_mode env =
      (false, [effOf env .rfkillUnblock false, effOf env .dnsmasqStop true,
               effOf env .dnsmasqDisable true, effOf env .hotspot false]) := by
  unfold start_ap_mode
  simp [hu, hh]

end ThreeZero

namespace ThreeZero

/-! ## Claim theorems: network mode controller -/

/-- Claim C3: for every execution of the WiFi-ON transition in which a
hard-requirement step fails (radio unblock, nmbd start or smbd start), the
handler invokes the radio-block rollback command exactly once, the state
variable ends as RADIO_OFF (`is_wifi_on = false`), and failure is reported
to the caller (inactive WiFi button style, AP button disabled). -/
theorem claim_C3_wifi_on_hard_failure (env : Env) (s : NetUI)
    (hw : s.is_wifi_on = false)
    (h : okc env .rfkillUnblock false = false ∨ okc env .nmbdStart false = false ∨
         okc env .smbdStart false = false) :
    (on_wifi_button_clicked env s).1.is_wifi_on = false ∧
    (on_wifi_button_clicked env s).1.btn_wifi_red = false ∧
    (on_wifi_button_clicked env s).1.btn_ap_enabled = false ∧
    countCmd SysCmd.rfkillBlock (on_wifi_button_clicked env s).2 = 1 := by
  have hfst : (start_client_mode env).1 = false := by
    rw [start_client_mode_fst]
    rcases h with h | h | h <;> simp [h]
  refine ⟨?_, ?_, ?_, ?_⟩ <;>
    simp only [on_wifi_button_clicked, hw, Bool.false_eq_true, if_false, hfst]
  rw [countCmd_append, start_client_mode_count_block]
  rfl

/-- Claim C3 witness: a concrete environment in which the nmbd start
fails, starting from the startup state with WiFi off. -/
theorem claim_C3_witness :
    (on_wifi_button_clicked (updEnv goodEnv SysCmd.nmbdStart CommandOutcome.timedOut)
      (initial_state false)).1.is_wifi_on = false ∧
    countCmd SysCmd.rfkillBlock
      (on_wifi_button_clicked (updEnv goodEnv SysCmd.nmbdStart CommandOutcome.timedOut)
        (initial_state false)).2 = 1 := by
  have h := claim_C3_wifi_on_hard_failure
    (updEnv goodEnv SysCmd.nmbdStart CommandOutcome.timedOut) (initial_state false)
    (by decide) (by right; left; decide)
  exact ⟨h.1, h.2.2.2⟩

/-- Claim C4: for every CLIENT → ACCESS_POINT transition in which the
hotspot-creation command fails (the radio unblock before it having
succeeded), the handler's trace is exactly the client teardown, the
AP-entry attempt, and one revert through the CLIENT entry sequence; the
AP-entry portion contains no stabilization sleep and no Samba start (the
whole trace contains no sleep, and its single client-entry sequence — the
revert, witnessed by the unique dnsmasq-enable step — occurs once);
failure is reported regardless of the revert's outcome: `is_ap_mode_active`
stays false with the inactive AP button style, and `is_wifi_on` stays
true (state variable reflects CLIENT). -/
theorem claim_C4_ap_on_hotspot_failure (env : Env) (s : NetUI)
    (hw : s.is_wifi_on = true) (ha : s.is_ap_mode_active = false)
    (hu : okc env .rfkillUnblock false = true)
    (hh : okc env .hotspot false = false) :
    (on_ap_button_clicked env s).1.is_ap_mode_active = false ∧
    (on_ap_button_clicked env s).1.btn_ap_red = false ∧
    (on_ap_button_clicked env s).1.is_wifi_on = true ∧
    (on_ap_button_clicked env s).2 =
      (stop_client_mode env).2 ++ (start_ap_mode env).2 ++ (start_client_mode env).2 ∧
    countSleep (start_ap_mode env).2 = 0 ∧
    countCmd SysCmd.nmbdStart (start_ap_mode env).2 = 0 ∧
    countCmd SysCmd.smbdStart (start_ap_mode env).2 = 0 ∧
    countSleep (on_ap_button_clicked env s).2 = 0 ∧
    countCmd SysCmd.dnsmasqEnable (on_ap_button_clicked env s).2 = 1 := by
  have hap := start_ap_mode_hotspot_fail env hu hh
  have hapfst : (start_ap_mode env).1 = false := by rw [hap]
  have hbody : on_ap_button_clicked env s =
      ({ s with is_ap_mode_active := false, btn_ap_red := false },
       (stop_client_mode env).2 ++ (start_ap_mode env).2 ++ (start_client_mode env).2) := by
    simp only [on_ap_button_clicked, hw, eq_self_iff_true, if_true, ha,
      Bool.false_eq_true, if_false, stop_client_mode, hapfst]
  refine ⟨?_, ?_, ?_, ?_, ?_, ?_, ?_, ?_, ?_⟩
  · rw [hbody]
  · rw [hbody]
  · rw [hbody]; exact hw
  · rw [hbody]
  · rw [hap]; rfl
  · rw [hap]; rfl
  · rw [hap]; rfl
  · rw [hbody, countSleep_append, countSleep_append, start_client_mode_count_sleep, hap]
    rfl
  · rw [hbody, countCmd_append, countCmd_append, start_client_mode_count_dnsmasq_enable, hap]
    rfl

/-- Claim C4 witness: a concrete environment in which the hotspot command
exits nonzero, starting from the CLIENT state. -/
theorem claim_C4_witness :
    (on_ap_button_clicked (updEnv goodEnv SysCmd.hotspot (CommandOutcome.failure 1))
      (initial_state true)).1.is_ap_mode_active = false ∧
    countSleep (on_ap_button_clicked (updEnv goodEnv SysCmd.hotspot (CommandOutcome.failure 1))
      (initial_state true)).2 = 0 := by
  have h := claim_C4_ap_on_hotspot_failure
    (updEnv goodEnv SysCmd.hotspot (CommandOutcome.failure 1)) (initial_state true)
    rfl rfl (by decide) (by decide)
  exact ⟨h.1, h.2.2.2.2.2.2.2.1⟩

/-- Claim C10: `stop_client_mode` and `stop_ap_mode` return success for
every outcome of their underlying commands, so the WiFi-OFF transition
reports failure (keeps `is_wifi_on` true) exactly when the single
radio-block command fails — the teardown-failure branch is unreachable. -/
theorem claim_C10_teardown_always_succeeds :
    (∀ env : Env, (stop_client_mode env).1 = true) ∧
    (∀ env : Env, (stop_ap_mode env).1 = true) ∧
    (∀ (env : Env) (s : NetUI), s.is_wifi_on = true →
      ((on_wifi_button_clicked env s).1.is_wifi_on = false ↔
        okc env .rfkillBlock false = true)) := by
  refine ⟨fun env => rfl, fun env => rfl, fun env s hw => ?_⟩
  unfold on_wifi_button_clicked
  cases hs : s.is_ap_mode_active <;> cases hb : okc env .rfkillBlock false <;>
    simp [hw, hs, hb, stop_ap_mode, stop_client_mode]

/-- Claim C10 witness: with WiFi on and the radio-block command succeeding,
the OFF transition reports success. -/
theorem claim_C10_witness :
    (on_wifi_button_clicked goodEnv (initial_state true)).1.is_wifi_on = false :=
  (claim_C10_teardown_always_succeeds.2.2 goodEnv (initial_state true) rfl).mpr (by decide)

end ThreeZero

namespace ThreeZero

/-- One step of any network button event preserves the implication
`is_ap_mode_active → is_wifi_on`. -/
theorem netStep_ap_imp_wifi (s : NetUI) (e : NetEvent)
    (h : s.is_ap_mode_active = true → s.is_wifi_on = true) :
    (netStep s e).is_ap_mode_active = true → (netStep s e).is_wifi_on = true := by
  cases e with
  | wifiBtn env =>
    unfold netStep on_wifi_button_clicked
    cases hw : s.is_wifi_on with
    | false =>
      cases hc : (start_client_mode env).1 <;> simp [hw, hc]
    | true =>
      cases hs : s.is_ap_mode_active <;> cases hb : okc env .rfkillBlock false <;>
        simp [hw, hs, hb, stop_ap_mode, stop_client_mode]
  | apBtn env =>
    unfold netStep on_ap_button_clicked
    cases hw : s.is_wifi_on with
    | false => simpa [hw] using h
    | true =>
      cases hs : s.is_ap_mode_active <;>
        cases hc : (start_client_mode env).1 <;>
          cases hap : (start_ap_mode env).1 <;>
            simp [hw, hs, hc, hap, stop_ap_mode, stop_client_mode]

/-- Claim C9: in every state reachable by any sequence of WiFi-button and
AP-button events from startup (with any per-event command environments),
`is_ap_mode_active` implies `is_wifi_on`. -/
theorem claim_C9_ap_implies_wifi (b : Bool) (evs : List NetEvent)
    (h : (netRun (initial_state b) evs).is_ap_mode_active = true) :
    (netRun (initial_state b) evs).is_wifi_on = true := by
  have key : ∀ (l : List NetEvent) (s : NetUI),
      (s.is_ap_mode_active = true → s.is_wifi_on = true) →
      (netRun s l).is_ap_mode_active = true → (netRun s l).is_wifi_on = true := by
    intro l
    induction l with
    | nil => intro s hs; simpa [netRun] using hs
    | cons e es ih =>
      intro s hs
      simpa [netRun] using ih (netStep s e) (netStep_ap_imp_wifi s e hs)
  exact key evs (initial_state b) (by simp [initial_state]) h

/-- Claim C9 witness: after a successful Client → AP switch, AP mode is
active and WiFi is on. -/
theorem claim_C9_witness :
    (netRun (initial_state true) [NetEvent.apBtn goodEnv]).is_wifi_on = true :=
  claim_C9_ap_implies_wifi true [NetEvent.apBtn goodEnv] (by decide)

end ThreeZero

namespace ThreeZero

/-! ## Helper lemmas: exposure controller -/

/-- Toggling a valid preset that is not the active one records it as the
active manual mode, for any device behaviour. -/
theorem toggle_to_manual (dev : DevEnv) (s : ExpState) (p : String) (et : Nat)
    (hp : exposure_times.lookup p = some et)
    (hne : s.active_exposure_button ≠ some p) :
    (on_exposure_button_clicked dev s p).1.active_exposure_button = some p ∧
    (on_exposure_button_clicked dev s p).1.current_manual_settings =
      some (manual_settings_for et) := by
  unfold on_exposure_button_clicked
  rw [if_neg hne, hp]
  exact ⟨rfl, rfl⟩

/-- Toggling the active preset reverts the recorded mode to Auto, for any
device behaviour. -/
theorem toggle_to_auto (dev : DevEnv) (s : ExpState) (p : String)
    (h : s.active_exposure_button = some p) :
    (on_exposure_button_clicked dev s p).1.active_exposure_button = none ∧
    (on_exposure_button_clicked dev s p).1.current_manual_settings = none := by
  unfold on_exposure_button_clicked
  rw [if_pos h]
  exact ⟨rfl, rfl⟩

/-- Claim C5: toggling the same preset `p` repeatedly alternates the
recorded mode Auto, Manual(p), Auto, Manual(p), …; and toggling `p1` then a
different `p2` always yields Manual(p2) with exactly p2's derived controls.
The handler is a single atomic step of the (single-threaded) event loop, so
no intermediate mode is observable between toggles. -/
theorem claim_C5_toggle_algebra (dev : DevEnv) :
    (∀ (p : String) (et : Nat) (s : ExpState),
       exposure_times.lookup p = some et →
       s.active_exposure_button = none → s.current_manual_settings = none →
       ∀ n : Nat,
         ((toggleIter dev p (2 * n) s).active_exposure_button = none ∧
          (toggleIter dev p (2 * n) s).current_manual_settings = none) ∧
         ((toggleIter dev p (2 * n + 1) s).active_exposure_button = some p ∧
          (toggleIter dev p (2 * n + 1) s).current_manual_settings =
            some (manual_settings_for et))) ∧
    (∀ (p1 p2 : String) (et1 et2 : Nat) (s : ExpState),
       p1 ≠ p2 →
       exposure_times.lookup p1 = some et1 →
       exposure_times.lookup p2 = some et2 →
       (on_exposure_button_clicked dev
          (on_exposure_button_clicked dev s p1).1 p2).1.active_exposure_button = some p2 ∧
       (on_exposure_button_clicked dev
          (on_exposure_button_clicked dev s p1).1 p2).1.current_manual_settings =
         some (manual_settings_for et2)) := by
  constructor
  · intro p et s hp hact hcms n
    induction n with
    | zero =>
      refine ⟨⟨hact, hcms⟩, ?_⟩
      exact toggle_to_manual dev s p et hp (by simp [hact])
    | succ k ih =>
      have heven : (toggleIter dev p (2 * (k + 1)) s).active_exposure_button = none ∧
          (toggleIter dev p (2 * (k + 1)) s).current_manual_settings = none :=
        toggle_to_auto dev (toggleIter dev p (2 * k + 1) s) p ih.2.1
      refine ⟨heven, ?_⟩
      exact toggle_to_manual dev (toggleIter dev p (2 * (k + 1)) s) p et hp
        (by simp [heven.1])
  · intro p1 p2 et1 et2 s hne hp1 hp2
    have h1 : (on_exposure_button_clicked dev s p1).1.active_exposure_button = some p1 ∨
        (on_exposure_button_clicked dev s p1).1.active_exposure_button = none := by
      by_cases h : s.active_exposure_button = some p1
      · exact Or.inr (toggle_to_auto dev s p1 h).1
      · exact Or.inl (toggle_to_manual dev s p1 et1 hp1 h).1
    have hne2 : (on_exposure_button_clicked dev s p1).1.active_exposure_button ≠ some p2 := by
      rcases h1 with h | h <;> rw [h] <;> simp [hne]
    exact toggle_to_manual dev _ p2 et2 hp2 hne2

/-- Claim C5 witness: concrete double and triple toggles of preset "1", and
the pair "1" then "1/2", from the startup exposure state. -/
theorem claim_C5_witness :
    ((toggleIter goodDev "1" 2 expStart).active_exposure_button = none ∧
     (toggleIter goodDev "1" 3 expStart).current_manual_settings =
       some (manual_settings_for 1000000)) ∧
    (on_exposure_button_clicked goodDev
       (on_exposure_button_clicked goodDev expStart "1").1
       "1/2").1.current_manual_settings = some (manual_settings_for 500000) := by
  have ha := (claim_C5_toggle_algebra goodDev).1 "1" 1000000 expStart (by decide) rfl rfl 1
  have hb := (claim_C5_toggle_algebra goodDev).2 "1" "1/2" 1000000 500000 expStart
    (by decide) (by decide) (by decide)
  exact ⟨⟨ha.1.1, ha.2.2⟩, hb.2⟩

/-- Claim C6: when both the `set_controls` path and the
stop/reconfigure/start fallback raise, the exposure toggle logs the error
and returns normally (the handler catches both exceptions, so the
embedding is a total function), the device's controls are unchanged, yet
`current_manual_settings` is already the newly requested mode; indeed the
recorded mode is the requested one for every device behaviour, because the
source assigns it before the first device call. -/
theorem claim_C6_optimistic_update (s : ExpState) (p : String) (et : Nat)
    (hp : exposure_times.lookup p = some et)
    (hne : s.active_exposure_button ≠ some p) :
    (on_exposure_button_clicked badDev s p).1.current_manual_settings =
      some (manual_settings_for et) ∧
    (on_exposure_button_clicked badDev s p).1.device_controls = s.device_controls ∧
    CamEff.log_error ∈ (on_exposure_button_clicked badDev s p).2 ∧
    (∀ dev : DevEnv,
      (on_exposure_button_clicked dev s p).1.current_manual_settings =
        some (manual_settings_for et)) := by
  refine ⟨(toggle_to_manual badDev s p et hp hne).2, ?_, ?_,
    fun dev => (toggle_to_manual dev s p et hp hne).2⟩
  · unfold on_exposure_button_clicked
    rw [if_neg hne, hp]
    rfl
  · unfold on_exposure_button_clicked
    rw [if_neg hne, hp]
    simp [apply_with_fallback, badDev]

/-- Claim C6 witness: toggling "1/2" from startup on a device where both
control paths raise. -/
theorem claim_C6_witness :
    (on_exposure_button_clicked badDev expStart "1/2").1.current_manual_settings =
      some (manual_settings_for 500000) ∧
    CamEff.log_error ∈ (on_exposure_button_clicked badDev expStart "1/2").2 := by
  have h := claim_C6_optimistic_update expStart "1/2" 500000 (by decide) (by decide)
  exact ⟨h.1, h.2.2.1⟩

end ThreeZero

namespace ThreeZero

/-! ## Claim theorems: capture/timer coordinator -/

/-- Claim C1 counterexample: the claim fails on the interleaving it itself
includes — cancelling and then starting a new countdown before the first
callback fires. From startup, press/press/press leaves the callback of the
first (cancelled, as the middle press shows: the flag is cleared while its
callback stays scheduled, id 0 still pending) countdown as the next to
fire, and firing it performs one capture, because the flag was re-set by
the third press; the claim says a cancelled countdown's callback performs
no capture. -/
theorem claim_C1_counterexample :
    ((camRun goodDev timerStart
        [CamEvent.press_timer, CamEvent.press_timer]).1.is_timer_countdown_active = false ∧
     (camRun goodDev timerStart
        [CamEvent.press_timer, CamEvent.press_timer]).1.pending = [0]) ∧
    ((camRun goodDev timerStart
        [CamEvent.press_timer, CamEvent.press_timer, CamEvent.press_timer]).1.pending.head? =
       some 0 ∧
     (capturesIn (fire_timer goodDev (camRun goodDev timerStart
        [CamEvent.press_timer, CamEvent.press_timer, CamEvent.press_timer]).1).2).length =
       1) := by
  decide

/-- Claim C1 as amended: a fired callback performs a capture exactly when
the countdown flag is set at firing time. Hence a cancelled countdown's
callback, fired while the flag is still clear (no new countdown started in
between), performs no capture and only resets timer state and button style
(popping itself from the scheduler); cancelling leaves the pending
callbacks scheduled; a callback fired with the flag set performs exactly
one capture and clears the flag (so if a new countdown starts before a
cancelled callback fires, the cancelled callback performs the capture
early and the new countdown's own callback performs none); and a countdown
started from Idle and never cancelled performs exactly one capture when
its callback fires. -/
theorem claim_C1_amended_flag_decides_capture (dev : DevEnv) :
    (∀ (s : TimerSt) (i : Nat) (rest : List Nat),
       s.is_timer_countdown_active = false → s.pending = i :: rest →
       fire_timer dev s =
         ({ s with
             pending := rest, is_timer_countdown_active := false,
             btn_timer_red := false }, [])) ∧
    (∀ s : TimerSt, s.is_timer_countdown_active = true →
       (on_timer_button_clicked s).1.pending = s.pending ∧
       (on_timer_button_clicked s).1.is_timer_countdown_active = false) ∧
    (∀ (s : TimerSt) (i : Nat) (rest : List Nat),
       s.is_timer_countdown_active = true → s.pending = i :: rest →
       (capturesIn (fire_timer dev s).2).length = 1 ∧
       (fire_timer dev s).1.is_timer_countdown_active = false) ∧
    (∀ s : TimerSt, s.is_timer_countdown_active = false → s.pending = [] →
       (capturesIn (camRun dev s [CamEvent.press_timer, CamEvent.fire]).2).length = 1) := by
  refine ⟨?_, ?_, ?_, ?_⟩
  · intro s i rest hf hp
    unfold fire_timer
    rw [hp]
    unfold delayed_capture_and_reset
    simp [hf]
  · intro s hf
    unfold on_timer_button_clicked
    rw [hf]
    exact ⟨rfl, rfl⟩
  · intro s i rest hf hp
    unfold fire_timer
    rw [hp]
    unfold delayed_capture_and_reset save_image reapply_manual_exposure_if_needed
    cases hm : s.current_manual_settings <;>
      cases hd : dev.set_controls_raises <;> simp [hf, hm, hd, capturesIn]
  · intro s hf hp
    unfold camRun camStep on_timer_button_clicked
    rw [hf]
    simp only [Bool.false_eq_true, if_false]
    unfold camRun camStep fire_timer
    rw [hp]
    unfold delayed_capture_and_reset save_image reapply_manual_exposure_if_needed camRun
    cases hm : s.current_manual_settings <;>
      cases hd : dev.set_controls_raises <;> simp [hm, hd, capturesIn]

/-- Claim C1 amended witness: a single countdown from startup, never
cancelled, captures exactly once when fired. -/
theorem claim_C1_amended_witness :
    (capturesIn (camRun goodDev timerStart
       [CamEvent.press_timer, CamEvent.fire]).2).length = 1 :=
  (claim_C1_amended_flag_decides_capture goodDev).2.2.2 timerStart rfl rfl

/-- Claim C7: while the countdown is active, an immediate-capture request
from the GUI save button or the physical button performs zero captures,
triggers no reapplication, and leaves the whole coordinator state
unchanged; when Idle, it performs exactly one capture followed by the
reapplication signal. -/
theorem claim_C7_immediate_capture_guard (dev : DevEnv) :
    (∀ s : TimerSt, s.is_timer_countdown_active = true →
       on_save_button_clicked dev s = (s, []) ∧
       handle_capture_press dev s = (s, [])) ∧
    (∀ s : TimerSt, s.is_timer_countdown_active = false →
       on_save_button_clicked dev s =
         (s, save_image s ++ reapply_manual_exposure_if_needed dev s) ∧
       handle_capture_press dev s =
         (s, save_image s ++ reapply_manual_exposure_if_needed dev s) ∧
       (capturesIn (on_save_button_clicked dev s).2).length = 1) := by
  constructor
  · intro s hf
    unfold on_save_button_clicked handle_capture_press
    rw [hf]
    exact ⟨rfl, rfl⟩
  · intro s hf
    unfold on_save_button_clicked handle_capture_press
    rw [hf]
    refine ⟨rfl, rfl, ?_⟩
    unfold save_image reapply_manual_exposure_if_needed
    cases hm : s.current_manual_settings <;>
      cases hd : dev.set_controls_raises <;> simp [hd, capturesIn]

/-- Claim C7 witness: from the startup (Idle) state the save button makes
one capture; from the counting state it makes none. -/
theorem claim_C7_witness :
    (capturesIn (on_save_button_clicked goodDev timerStart).2).length = 1 ∧
    on_save_button_clicked goodDev
      { timerStart with is_timer_countdown_active := true } =
      ({ timerStart with is_timer_countdown_active := true }, []) := by
  refine ⟨((claim_C7_immediate_capture_guard goodDev).2 timerStart rfl).2.2, ?_⟩
  exact ((claim_C7_immediate_capture_guard goodDev).1
    { timerStart with is_timer_countdown_active := true } rfl).1

/-- Claim C8: every capture performed while a manual preset is active —
via the GUI save button, the physical button, or a completing countdown —
issues exactly one still-capture call carrying the preset's derived
controls (AnalogueGain 1, AeEnable false, ExposureTime the preset's
microsecond value, AwbEnable true) followed by exactly one `set_controls`
reapplication call carrying the same controls. -/
theorem claim_C8_capture_carries_manual_controls (dev : DevEnv) (p : String) (et : Nat)
    (s : TimerSt)
    (hp : exposure_times.lookup p = some et)
    (hm : s.current_manual_settings = some (manual_settings_for et))
    (hidle : s.is_timer_countdown_active = false) :
    captureAndControlCalls (on_save_button_clicked dev s).2 =
      [CamEff.capture_file (some (manual_settings_for et)),
       CamEff.set_controls (manual_settings_for et)] ∧
    captureAndControlCalls (handle_capture_press dev s).2 =
      [CamEff.capture_file (some (manual_settings_for et)),
       CamEff.set_controls (manual_settings_for et)] ∧
    (∀ (s2 : TimerSt) (i : Nat) (rest : List Nat),
       s2.current_manual_settings = some (manual_settings_for et) →
       s2.is_timer_countdown_active = true → s2.pending = i :: rest →
       captureAndControlCalls (fire_timer dev s2).2 =
         [CamEff.capture_file (some (manual_settings_for et)),
          CamEff.set_controls (manual_settings_for et)]) ∧
    (manual_settings_for et).AnalogueGain = some 1 ∧
    (manual_settings_for et).AeEnable = some false ∧
    (manual_settings_for et).ExposureTime = some et ∧
    (manual_settings_for et).AwbEnable = some true := by
  refine ⟨?_, ?_, ?_, rfl, rfl, rfl, rfl⟩
  · unfold on_save_button_clicked save_image reapply_manual_exposure_if_needed
    rw [hidle, hm]
    cases hd : dev.set_controls_raises <;> simp [hd, captureAndControlCalls]
  · unfold handle_capture_press save_image reapply_manual_exposure_if_needed
    rw [hidle, hm]
    cases hd : dev.set_controls_raises <;> simp [hd, captureAndControlCalls]
  · intro s2 i rest hm2 hf2 hp2
    unfold fire_timer
    rw [hp2]
    unfold delayed_capture_and_reset save_image reapply_manual_exposure_if_needed
    cases hd : dev.set_controls_raises <;> simp [hf2, hm2, hd, captureAndControlCalls]

/-- Claim C8 witness: the preset "1/125" (8000 µs) active and Idle; the GUI
save button performs the capture-then-reapply pair with those controls. -/
theorem claim_C8_witness :
    captureAndControlCalls (on_save_button_clicked goodDev
      { timerStart with
          current_manual_settings := some (manual_settings_for 8000) }).2 =
      [CamEff.capture_file (some (manual_settings_for 8000)),
       CamEff.set_controls (manual_settings_for 8000)] ∧
    (manual_settings_for 8000).ExposureTime = some 8000 := by
  have h := claim_C8_capture_carries_manual_controls goodDev "1/125" 8000
    { timerStart with current_manual_settings := some (manual_settings_for 8000) }
    (by decide) rfl rfl
  exact ⟨h.1, h.2.2.2.2.2.1⟩

end ThreeZero

namespace ThreeZero

/-! ## Claim theorems: command executor -/

/-- Environment update leaves other commands' results unchanged. -/
theorem okc_updEnv_ne (env : Env) (c c2 : SysCmd) (o : CommandOutcome) (ig : Bool)
    (h : c2 ≠ c) : okc (updEnv env c o) c2 ig = okc env c2 ig := by
  unfold okc updEnv
  rw [if_neg h]

/-- Claim C2 counterexample: on an ignorable step, a timeout of the
external command is not collapsed into success — `run_system_command`
returns False for `TimeoutExpired` even with `ignore_fail=True`, because
the timeout except-branch returns False unconditionally. -/
theorem claim_C2_counterexample :
    run_system_command CommandOutcome.timedOut true = false := rfl

/-- Claim C2 as amended: on an ignorable step a nonzero exit is logged and
ignored (the caller-visible result is the success value), but a timeout or
a missing executable yields False even when ignorable. The enclosing
transition is still never aborted by an ignorable step: the one ignorable
step inside a success-tracking sequence (nmcli client up in
`start_client_mode`) has no influence on the sequence's result, whatever
its outcome. -/
theorem claim_C2_amended_ignorable_steps (code : Int) :
    run_system_command (CommandOutcome.failure code) true = true ∧
    run_system_command CommandOutcome.timedOut true = false ∧
    run_system_command CommandOutcome.notFound true = false ∧
    (∀ (env : Env) (o : CommandOutcome),
       (start_client_mode (updEnv env SysCmd.nmcliClientUp o)).1 =
         (start_client_mode env).1) := by
  refine ⟨rfl, rfl, rfl, fun env o => ?_⟩
  rw [start_client_mode_fst, start_client_mode_fst,
    okc_updEnv_ne env SysCmd.nmcliClientUp SysCmd.rfkillUnblock o false (by decide),
    okc_updEnv_ne env SysCmd.nmcliClientUp SysCmd.nmbdStart o false (by decide),
    okc_updEnv_ne env SysCmd.nmcliClientUp SysCmd.smbdStart o false (by decide)]

end ThreeZero
